import Mathlib

/-!
Shallow embedding of the transactional SQL execution and migration-tracking
layer of the EJ_Supervision_Import repository (`utils/etl_helpers.py` and
`db/migrations.py`), together with theorems settling the frozen claims about
its behaviour.  Connections are modelled as explicit records of observable
state (auto-commit flag, commit/rollback counters, executed-SQL trace,
migration ledger), driver failures as values of an error type, and each
Python function as a Lean function over those records, faithful to the
control flow of the source.
-/

namespace EJ

/-- Python `str.isspace` characters relevant to `str.strip()` and the `\s`
regex class: space, tab, newline, carriage return, vertical tab, form feed. -/
def pyIsSpace (c : Char) : Bool :=
  c = ' ' || c = '\t' || c = '\n' || c = '\r' || c = '\x0b' || c = '\x0c'

/-- Python `str.strip()`: drop leading and trailing whitespace. -/
def pyStrip (s : String) : String :=
  String.mk (((s.toList.dropWhile pyIsSpace).reverse.dropWhile pyIsSpace).reverse)

/-- ASCII lower-casing of one character, as Python `str.lower()` acts on
ASCII letters (driver error messages are ASCII). -/
def asciiLower (c : Char) : Char :=
  if 'A' ≤ c ∧ c ≤ 'Z' then Char.ofNat (c.toNat + 32) else c

/-- Python `str.lower()` restricted to ASCII strings. -/
def lowerStr (s : String) : String :=
  String.mk (s.toList.map asciiLower)

/-- Boolean test that `p` is an initial segment of `l`. -/
def startsWithL : List Char → List Char → Bool
  | _, [] => true
  | [], _ :: _ => false
  | h :: hs, p :: ps => h = p && startsWithL hs ps

/-- Boolean test that `pat` occurs contiguously inside `hay`
(Python `pat in hay`). -/
def containsSeq : List Char → List Char → Bool
  | hay, pat =>
    startsWithL hay pat ||
      match hay with
      | [] => false
      | _ :: t => containsSeq t pat

/-- Python substring containment `pat in s`. -/
def containsTok (s pat : String) : Bool :=
  containsSeq s.toList pat.toList

/-- Python `s.startswith("--")`. -/
def startsDashDash (s : String) : Bool :=
  match s.toList with
  | '-' :: '-' :: _ => true
  | _ => false

/-- Python `s.split("\n")`: split at every newline, keeping empty pieces
(so `""` yields one empty piece). -/
def splitNl : List Char → List (List Char)
  | [] => [[]]
  | '\n' :: rest => [] :: splitNl rest
  | c :: rest =>
    match splitNl rest with
    | h :: t => (c :: h) :: t
    | [] => [[c]]

/-- Python `s.split("\n")` on strings. -/
def pySplitLines (s : String) : List String :=
  (splitNl s.toList).map String.mk

/-- Python `"\n".join(lines)`. -/
def joinNl : List String → String
  | [] => ""
  | [s] => s
  | s :: rest => s ++ "\n" ++ joinNl rest

/-- A driver-level error: whether it is a `pyodbc.Error` instance, and its
message (`str(err)`). -/
structure DriverErr where
  isPyodbc : Bool
  msg : String
deriving DecidableEq

/-- Transience classification used by the spec: the lowered message contains
"timeout" or "deadlock" (`utils/etl_helpers.py` lines 345-353). -/
def isTransient (e : DriverErr) : Bool :=
  containsTok (lowerStr e.msg) "timeout" || containsTok (lowerStr e.msg) "deadlock"

/-- The `SQLExecutionError` raised by the helpers: the failing SQL text, the
wrapped original driver error, and an optional logical name
(`utils/etl_helpers.py` lines 17-27). -/
structure SQLExecutionError where
  sql : String
  original : DriverErr
  table_name : Option String
deriving DecidableEq

/-! Transaction Scope (`utils/etl_helpers.py` lines 256-277).

A connection is modelled by its observable transactional state: the
`autocommit` attribute (`none` when the attribute is absent, matching
`getattr(conn, "autocommit", None)`), and commit/rollback counters.  The
caller's block is a function from the connection state to a final state
plus an optional raised exception. -/

structure TConn where
  autocommit : Option Bool
  commits : Nat
  rollbacks : Nat
deriving DecidableEq

/-- The `finally` clause: restore `autocommit` only when the original value
was not `None`. -/
def restoreAuto (c : TConn) (orig : Option Bool) : TConn :=
  match orig with
  | some v => { c with autocommit := some v }
  | none => c

/-- Entry of the scope: remember `getattr(conn, "autocommit", None)`; when it
is not `None`, set `conn.autocommit = False`. -/
def scopeEntry (c : TConn) : TConn :=
  if c.autocommit.isSome then { c with autocommit := some false } else c

/-- The `transaction_scope` context manager: disable autocommit, run the
body; commit on normal exit, roll back and re-raise on exception; in the
`finally` clause restore the original autocommit value when it existed. -/
def transaction_scope {E : Type} (body : TConn → TConn × Option E) (c : TConn) :
    TConn × Option E :=
  let orig := c.autocommit
  match body (scopeEntry c) with
  | (c2, none) => (restoreAuto { c2 with commits := c2.commits + 1 } orig, none)
  | (c2, some e) => (restoreAuto { c2 with rollbacks := c2.rollbacks + 1 } orig, some e)

/-! Retrying Step Runner (`utils/etl_helpers.py` lines 321-355).

The wrapped `run_sql_step` is abstracted as a function from the attempt
index to its outcome (`run_sql_step` converts every failure into an
`SQLExecutionError`, so its outcome is `Except SQLExecutionError α`).  The
loop `for attempt in range(max_retries)` is modelled by recursion on the
number of remaining iterations, keeping the invariant
`attempt + remaining = max_retries`. -/

/-- Outcome of `run_sql_step_with_retry`: a returned value, a raised
`SQLExecutionError`, or falling off the loop (Python returns `None`; this
happens only when `max_retries = 0`).  `calls` counts executed attempts. -/
inductive RetryOutcome (α : Type) where
  | ok (r : α) (calls : Nat)
  | raised (e : SQLExecutionError) (calls : Nat)
  | fellThrough
deriving DecidableEq

/-- Number of attempts actually executed. -/
def RetryOutcome.calls {α : Type} : RetryOutcome α → Nat
  | .ok _ n => n
  | .raised _ n => n
  | .fellThrough => 0

/-- One loop of `run_sql_step_with_retry`, from attempt index `attempt` with
`remaining` iterations left.  On success return the result.  On an
`SQLExecutionError`: re-raise when the wrapped error is not a
`pyodbc.Error`; re-raise when this was the last allowed attempt
(`attempt == max_retries - 1`, i.e. `remaining = 1`); otherwise sleep
`2 ** attempt` seconds (no observable state) and retry.  The source only
logs differently for timeout/deadlock messages; the message plays no role
in the control flow. -/
def retryFrom {α : Type} (step : Nat → Except SQLExecutionError α) :
    Nat → Nat → RetryOutcome α
  | 0, _ => .fellThrough
  | remaining + 1, attempt =>
    match step attempt with
    | .ok v => .ok v (attempt + 1)
    | .error e =>
      if e.original.isPyodbc then
        if remaining = 0 then .raised e (attempt + 1)
        else retryFrom step remaining (attempt + 1)
      else .raised e (attempt + 1)

/-- The `run_sql_step_with_retry` driver: run the loop body at most
`max_retries` times starting from attempt 0. -/
def run_sql_step_with_retry {α : Type} (step : Nat → Except SQLExecutionError α)
    (max_retries : Nat) : RetryOutcome α :=
  retryFrom step max_retries 0

/-! Batch separator splitting.

Both script runners split the script with
`re.split(r'(?:^|\n)\s*GO\s*(?:\r?\n|$)', sql, flags=re.IGNORECASE | re.MULTILINE)`
(`utils/etl_helpers.py` lines 43 and 391).  The concrete pattern is modelled
directly as a backtracking matcher: `(?:^|\n)` anchors the match at a line
start (with MULTILINE, `^` matches at position 0 and after every newline) or
consumes a newline; `\s*GO` is deterministic because `G` is not whitespace;
the tail `\s*(?:\r?\n|$)` needs greedy backtracking; the MULTILINE `$`
(zero-width before a newline) is subsumed by the `\r?\n` alternative, which
the alternation tries first and which succeeds wherever a newline follows. -/

/-- Match of the alternation `(?:\r?\n|$)` at the head of `l`, returning the
remainder after the consumed text. -/
def matchNlEnd : List Char → Option (List Char)
  | '\r' :: '\n' :: r => some r
  | '\n' :: r => some r
  | [] => some []
  | _ => none

/-- Greedy match of the regex tail `\s*(?:\r?\n|$)`: consume as much
whitespace as possible, backtracking one character at a time until the
final alternation matches. -/
def matchWsEnd : List Char → Option (List Char)
  | [] => some []
  | c :: rest =>
    if pyIsSpace c then
      match matchWsEnd rest with
      | some r => some r
      | none => matchNlEnd (c :: rest)
    else matchNlEnd (c :: rest)

/-- Match of `\s*GO` (case-insensitive) followed by the tail: whitespace
cannot be a `G`, so the `\s*` here is deterministic. -/
def matchGoBody (l : List Char) : Option (List Char) :=
  match l.dropWhile pyIsSpace with
  | g :: o :: rest =>
    if (g = 'G' || g = 'g') && (o = 'O' || o = 'o') then matchWsEnd rest else none
  | _ => none

/-- Match of the full separator pattern at the current position:
`lineStart` records whether `^` matches here (position 0 or just after a
newline); the `\n` alternative consumes a newline instead. -/
def matchGoAt (l : List Char) (lineStart : Bool) : Option (List Char) :=
  match (if lineStart then matchGoBody l else none) with
  | some r => some r
  | none =>
    match l with
    | '\n' :: rest => matchGoBody rest
    | _ => none

/-- The `re.split` scan: attempt the separator at each position left to
right; pieces between non-overlapping matches become the batches.  Every
match consumes at least the two `GO` characters, so fuel `length + 1`
suffices; a match always ends just after a newline or at the end of input,
so the position after a match is a line start. -/
def splitGoAux : Nat → List Char → Bool → List Char → List (List Char) →
    List (List Char)
  | 0, l, _, cur, acc => acc ++ [cur.reverse ++ l]
  | fuel + 1, l, lineStart, cur, acc =>
    match matchGoAt l lineStart with
    | some rest => splitGoAux fuel rest true [] (acc ++ [cur.reverse])
    | none =>
      match l with
      | [] => acc ++ [cur.reverse]
      | c :: rest => splitGoAux fuel rest (c = '\n') (c :: cur) acc

/-- Model of the `re.split` call on the batch-separator pattern. -/
def goSplit (s : String) : List String :=
  (splitGoAux (s.toList.length + 1) s.toList true [] []).map String.mk

/-! Connection model for the ledger and the script runners.

A connection is either "statement-execute" style (SQLAlchemy: has `execute`
and no `cursor`) or "cursor-based" (DB-API/pyodbc); every function of the
source detects the shape with `hasattr` and branches.  The observable state
is: whether the `MigrationHistory` table exists (plus whether it has the
`ROWID` column and a named primary-key constraint, for the self-healing
branch of `ensure_version_table`), the recorded script names, the trace of
SQL texts handed to the driver (attempts, in order, including failing
ones), and commit/rollback counters.  Driver behaviour is an oracle
`execFails` from the SQL text to an optional driver error, plus a
`fetchFails` flag for row-fetch failures (which `_execute` catches). -/

inductive Shape where
  | stmtExec
  | cursorBased
deriving DecidableEq

structure Conn where
  shape : Shape
  tableExists : Bool
  hasRowId : Bool
  hasNamedPk : Bool
  ledger : List String
  execFails : String → Option DriverErr
  fetchFails : Bool
  trace : List String
  commits : Nat
  rollbacks : Nat

/-- An exception as seen by a caller: either a raw driver error propagated
unwrapped, or a wrapped `SQLExecutionError`. -/
inductive PyExc where
  | driver (e : DriverErr)
  | sqlExec (e : SQLExecutionError)
deriving DecidableEq

/-- SQL texts issued by `db/migrations.py` (f-strings with
`VERSION_TABLE = "MigrationHistory"` substituted; multi-line literals are
collapsed to one line, which the model treats as an opaque token). -/
def checkTableSql : String :=
  "SELECT 1 FROM INFORMATION_SCHEMA.TABLES WITH (NOLOCK) WHERE TABLE_SCHEMA = 'dbo' AND TABLE_NAME = 'MigrationHistory'"

def createTableSql : String :=
  "CREATE TABLE dbo.MigrationHistory(ROWID INT IDENTITY(1,1) PRIMARY KEY, script_name NVARCHAR(255) NOT NULL, applied_at DATETIME DEFAULT GETDATE())"

def checkRowIdSql : String :=
  "SELECT 1 FROM INFORMATION_SCHEMA.COLUMNS WITH (NOLOCK) WHERE TABLE_SCHEMA = 'dbo' AND TABLE_NAME = 'MigrationHistory' AND COLUMN_NAME = 'ROWID'"

def pkLookupSql : String :=
  "SELECT CONSTRAINT_NAME FROM INFORMATION_SCHEMA.TABLE_CONSTRAINTS WITH (NOLOCK) WHERE TABLE_SCHEMA = 'dbo' AND TABLE_NAME = 'MigrationHistory' AND CONSTRAINT_TYPE = 'PRIMARY KEY'"

def dropPkSql : String :=
  "ALTER TABLE dbo.MigrationHistory DROP CONSTRAINT <pk_name>"

def addRowIdSql : String :=
  "ALTER TABLE dbo.MigrationHistory ADD ROWID INT IDENTITY(1,1) PRIMARY KEY"

def addUniqueSql : String :=
  "ALTER TABLE dbo.MigrationHistory ADD CONSTRAINT UQ_MigrationHistory_script_name UNIQUE (script_name)"

def hasMigrationSql : String :=
  "SELECT 1 FROM dbo.MigrationHistory WITH (NOLOCK) WHERE script_name = ?"

def insertMigrationSql : String :=
  "INSERT INTO dbo.MigrationHistory (script_name) VALUES (?)"

/-- The per-cursor timeout directive `SET LOCK_TIMEOUT {timeout * 1000}`. -/
def setLockTimeoutSql (timeout : Nat) : String :=
  "SET LOCK_TIMEOUT " ++ toString (timeout * 1000)

/-- Model of `db/migrations._execute`: hand `sql` to the driver; a failure
of the execute itself propagates as a driver error (only fetch failures are
caught there); with `fetch`, the result is summarised by the Boolean `rows`
(non-emptiness of the fetched rows) when the fetch succeeds, and a caught
fetch failure yields `None`, which is falsy; DB-API connections commit
after every `_execute`. -/
def mExecute (c : Conn) (sql : String) (fetch : Bool) (rows : Conn → Bool) :
    Conn × Except DriverErr Bool :=
  let c := { c with trace := c.trace ++ [sql] }
  match c.execFails sql with
  | some e => (c, .error e)
  | none =>
    let b := if fetch then (if c.fetchFails then false else rows c) else false
    let c :=
      match c.shape with
      | .cursorBased => { c with commits := c.commits + 1 }
      | .stmtExec => c
    (c, .ok b)

/-- A direct `cursor.execute`/`conn.execute` call outside `_execute`
(no commit, no fetch): the attempt is traced and a driver failure is
reported. -/
def rawExec (c : Conn) (sql : String) : Conn × Option DriverErr :=
  let c := { c with trace := c.trace ++ [sql] }
  match c.execFails sql with
  | some e => (c, some e)
  | none => (c, none)

/-- Model of `db/migrations.ensure_version_table`: check table existence
(a fetching `_execute`); if absent, create it; otherwise check for the
`ROWID` column and, when it is missing, self-heal the legacy schema
(drop the named primary key when one exists, add `ROWID`, add the
uniqueness constraint on `script_name`).  Any driver failure propagates. -/
def ensure_version_table (c : Conn) : Conn × Option DriverErr :=
  match mExecute c checkTableSql true (fun c => c.tableExists) with
  | (c, .error e) => (c, some e)
  | (c, .ok tblExists) =>
    if tblExists = false then
      match mExecute c createTableSql false (fun _ => false) with
      | (c, .error e) => (c, some e)
      | (c, .ok _) => ({ c with tableExists := true, hasRowId := true }, none)
    else
      match mExecute c checkRowIdSql true (fun c => c.hasRowId) with
      | (c, .error e) => (c, some e)
      | (c, .ok rowid) =>
        if rowid then (c, none)
        else
          match mExecute c pkLookupSql true (fun c => c.hasNamedPk) with
          | (c, .error e) => (c, some e)
          | (c, .ok pk) =>
            let dropStep : Conn × Option DriverErr :=
              if pk then
                match mExecute c dropPkSql false (fun _ => false) with
                | (c, .error e) => (c, some e)
                | (c, .ok _) => ({ c with hasNamedPk := false }, none)
              else (c, none)
            match dropStep with
            | (c, some e) => (c, some e)
            | (c, none) =>
              match mExecute c addRowIdSql false (fun _ => false) with
              | (c, .error e) => (c, some e)
              | (c, .ok _) =>
                match mExecute c addUniqueSql false (fun _ => false) with
                | (c, .error e) => (c, some e)
                | (c, .ok _) => ({ c with hasRowId := true }, none)

/-- Model of `db/migrations.has_migration`: one fetching `_execute` of the
ledger SELECT; `bool(result)` is true exactly when the fetch succeeded and
returned a row for `name`.  A failure of the SELECT itself propagates. -/
def has_migration (c : Conn) (name : String) : Conn × Except DriverErr Bool :=
  mExecute c hasMigrationSql true (fun c => c.ledger.contains name)

/-- Model of `db/migrations.record_migration`: ensure the table, then
insert the name.  The statement-execute branch commits on success and, on
failure, rolls back and re-raises; the DB-API branch goes through
`_execute` (which commits on success) and performs no rollback on
failure. -/
def record_migration (c : Conn) (migration_name : String) : Conn × Option DriverErr :=
  match ensure_version_table c with
  | (c, some e) => (c, some e)
  | (c, none) =>
    match c.shape with
    | .stmtExec =>
      match rawExec c insertMigrationSql with
      | (c, some e) => ({ c with rollbacks := c.rollbacks + 1 }, some e)
      | (c, none) =>
        ({ c with ledger := c.ledger ++ [migration_name], commits := c.commits + 1 }, none)
    | .cursorBased =>
      match mExecute c insertMigrationSql false (fun _ => false) with
      | (c, .error e) => (c, some e)
      | (c, .ok _) => ({ c with ledger := c.ledger ++ [migration_name] }, none)

/-- The batch loop of `run_sql_script` in batched mode
(`utils/etl_helpers.py` lines 400-461; the statement-execute and DB-API
branches are identical at this level): skip a batch whose stripped text is
empty; silently skip a batch whose stripped text starts with `--`;
otherwise execute the stripped batch and commit, raising
`SQLExecutionError(batch_sql, e, name)` on failure and abandoning the
remaining batches.  `total_statements` equals the number of trace entries
this loop appends, since both are incremented exactly at a successful
execution. -/
def runBatches (name : String) : List String → Conn → Conn × Option SQLExecutionError
  | [], c => (c, none)
  | b :: rest, c =>
    let t := pyStrip b
    if t = "" then runBatches name rest c
    else if startsDashDash t then runBatches name rest c
    else
      match rawExec c t with
      | (c, some e) => (c, some ⟨t, e, some name⟩)
      | (c, none) => runBatches name rest { c with commits := c.commits + 1 }

/-- The batch loop of `run_sql_script_pyodbc_raw`
(`utils/etl_helpers.py` lines 55-94 and the identical lines 101-140):
skip a batch whose stripped text is empty; split the batch into lines,
strip each line, drop empty and comment-only lines; skip the batch when
nothing remains; otherwise execute the rejoined lines and commit, raising
`SQLExecutionError(final_batch_sql, e, name)` on failure. -/
def rawBatches (name : String) : List String → Conn → Conn × Option SQLExecutionError
  | [], c => (c, none)
  | b :: rest, c =>
    let t := pyStrip b
    if t = "" then rawBatches name rest c
    else
      let kept := ((pySplitLines t).map pyStrip).filter
        (fun l => !(l == "") && !startsDashDash l)
      if kept.isEmpty then rawBatches name rest c
      else
        let fb := joinNl kept
        match rawExec c fb with
        | (c, some e) => (c, some ⟨fb, e, some name⟩)
        | (c, none) => rawBatches name rest { c with commits := c.commits + 1 }

/-- Model of `run_sql_script` (`utils/etl_helpers.py` lines 356-474).
`ensure_version_table` and `has_migration` run before the `try` block, so
their driver failures propagate unwrapped; when the name is recorded the
function logs and returns at once.  Raw mode executes the whole text as one
unit and commits once (the DB-API branch first issues the lock-timeout
directive); batched mode splits on the separator and runs the batch loop.
`record_migration` runs inside the `try`, so its driver failure is wrapped
as `SQLExecutionError(sql, e, name)`. -/
def run_sql_script (c : Conn) (name sql : String) (timeout : Nat)
    (raw_execution : Bool) : Conn × Option PyExc :=
  match ensure_version_table c with
  | (c, some e) => (c, some (.driver e))
  | (c, none) =>
    match has_migration c name with
    | (c, .error e) => (c, some (.driver e))
    | (c, .ok true) => (c, none)
    | (c, .ok false) =>
      if raw_execution then
        let step1 : Conn × Option DriverErr :=
          match c.shape with
          | .stmtExec => (c, none)
          | .cursorBased => rawExec c (setLockTimeoutSql timeout)
        match step1 with
        | (c, some e) => (c, some (.sqlExec ⟨sql, e, some name⟩))
        | (c, none) =>
          match rawExec c sql with
          | (c, some e) => (c, some (.sqlExec ⟨sql, e, some name⟩))
          | (c, none) =>
            let c := { c with commits := c.commits + 1 }
            match record_migration c name with
            | (c, some e) => (c, some (.sqlExec ⟨sql, e, some name⟩))
            | (c, none) => (c, none)
      else
        let step1 : Conn × Option DriverErr :=
          match c.shape with
          | .stmtExec => (c, none)
          | .cursorBased => rawExec c (setLockTimeoutSql timeout)
        match step1 with
        | (c, some e) => (c, some (.sqlExec ⟨sql, e, some name⟩))
        | (c, none) =>
          match runBatches name (goSplit sql) c with
          | (c, some e) => (c, some (.sqlExec e))
          | (c, none) =>
            match record_migration c name with
            | (c, some e) => (c, some (.sqlExec ⟨sql, e, some name⟩))
            | (c, none) => (c, none)

/-- Model of `run_sql_script_pyodbc_raw` (`utils/etl_helpers.py` lines
30-154).  The ledger gate runs before the `try` block; then, on a pyodbc
cursor (obtained directly or from under a SQLAlchemy connection — both
branches of the source are identical), the lock-timeout directive and the
raw batch loop run inside the `try`, so a directive failure is wrapped as
`SQLExecutionError(sql, e, name)`; `record_migration` runs inside the
`try` as well. -/
def run_sql_script_pyodbc_raw (c : Conn) (name sql : String) (timeout : Nat) :
    Conn × Option PyExc :=
  match ensure_version_table c with
  | (c, some e) => (c, some (.driver e))
  | (c, none) =>
    match has_migration c name with
    | (c, .error e) => (c, some (.driver e))
    | (c, .ok true) => (c, none)
    | (c, .ok false) =>
      match rawExec c (setLockTimeoutSql timeout) with
      | (c, some e) => (c, some (.sqlExec ⟨sql, e, some name⟩))
      | (c, none) =>
        match rawBatches name (goSplit sql) c with
        | (c, some e) => (c, some (.sqlExec e))
        | (c, none) =>
          match record_migration c name with
          | (c, some e) => (c, some (.sqlExec ⟨sql, e, some name⟩))
          | (c, none) => (c, none)

/-- Model of `execute_sql_with_timeout` (`utils/etl_helpers.py` lines
155-177).  The function contains no `try`/`except`: the statement-execute
branch calls `conn.execute` directly, and the cursor branch first issues
the lock-timeout directive (unprotected) and then executes the statement;
every driver failure propagates unwrapped, and on success a live
result/cursor handle is returned (`true`). -/
def execute_sql_with_timeout (c : Conn) (sql : String) (timeout : Nat) :
    Conn × Except PyExc Bool :=
  match c.shape with
  | .stmtExec =>
    match rawExec c sql with
    | (c, some e) => (c, .error (.driver e))
    | (c, none) => (c, .ok true)
  | .cursorBased =>
    match rawExec c (setLockTimeoutSql timeout) with
    | (c, some e) => (c, .error (.driver e))
    | (c, none) =>
      match rawExec c sql with
      | (c, some e) => (c, .error (.driver e))
      | (c, none) => (c, .ok true)

/-- Model of `run_sql_step` (`utils/etl_helpers.py` lines 279-320): the
whole body is inside a `try` whose handler raises
`SQLExecutionError(sql, e, name)`, so every driver failure — the
lock-timeout directive on the cursor branch, the statement itself, or the
`record_migration` call on success — is wrapped with the step's SQL text
and name.  A fetch failure is caught locally (`results = None`). -/
def run_sql_step (c : Conn) (name sql : String) (timeout : Nat) :
    Conn × Except SQLExecutionError (Option Unit) :=
  let afterExec : Conn → Conn × Except SQLExecutionError (Option Unit) := fun c =>
    let res : Option Unit := if c.fetchFails then none else some ()
    match record_migration c name with
    | (c, some e) => (c, .error ⟨sql, e, some name⟩)
    | (c, none) => (c, .ok res)
  match c.shape with
  | .stmtExec =>
    match rawExec c sql with
    | (c, some e) => (c, .error ⟨sql, e, some name⟩)
    | (c, none) => afterExec c
  | .cursorBased =>
    match rawExec c (setLockTimeoutSql timeout) with
    | (c, some e) => (c, .error ⟨sql, e, some name⟩)
    | (c, none) =>
      match rawExec c sql with
      | (c, some e) => (c, .error ⟨sql, e, some name⟩)
      | (c, none) => afterExec c

/-! Concrete instances used to instantiate the theorems below. -/

/-- A fresh statement-execute connection whose driver never fails: no ledger
table yet, empty ledger, empty trace. -/
def freshConn : Conn where
  shape := .stmtExec
  tableExists := false
  hasRowId := false
  hasNamedPk := false
  ledger := []
  execFails := fun _ => none
  fetchFails := false
  trace := []
  commits := 0
  rollbacks := 0

/-- A connection whose ledger already records script `"X"`, with a healthy
ledger store. -/
def gateConn : Conn :=
  { freshConn with tableExists := true, hasRowId := true, ledger := ["X"] }

/-- A connection on which executing the ledger SELECT itself raises. -/
def badSelectConn : Conn :=
  { gateConn with
    execFails := fun s =>
      if s == hasMigrationSql then some ⟨true, "connection is busy"⟩ else none }

/-- A connection on which the ledger SELECT executes but fetching its rows
raises (the failure `_execute` catches). -/
def fetchFailConn : Conn :=
  { gateConn with fetchFails := true }

/-- A cursor-based connection on which the ledger INSERT raises. -/
def badInsertCursorConn : Conn :=
  { freshConn with
    shape := .cursorBased, tableExists := true, hasRowId := true,
    execFails := fun s =>
      if s == insertMigrationSql then some ⟨true, "Violation of UNIQUE KEY constraint"⟩
      else none }

/-- A statement-execute connection on which the ledger INSERT raises. -/
def badInsertStmtConn : Conn :=
  { badInsertCursorConn with shape := .stmtExec }

/-- A connection on which one particular statement raises a driver error. -/
def stmtFailConn : Conn :=
  { freshConn with
    execFails := fun s =>
      if s == "SELECT * FROM t" then some ⟨true, "Invalid object name t"⟩ else none }

/-- A cursor-based connection on which the lock-timeout directive raises. -/
def lockFailConn : Conn :=
  { freshConn with
    shape := .cursorBased,
    execFails := fun s =>
      if s == setLockTimeoutSql 300 then some ⟨true, "SET LOCK_TIMEOUT failed"⟩ else none }

/-- A healthy cursor-based connection. -/
def cursorOkConn : Conn :=
  { freshConn with shape := .cursorBased }

/-- The script of the batch-splitting property. -/
def c5Script : String := "SELECT 1\nGO\n-- comment only\nGO\nSELECT 2"

/-- A one-batch script whose stripped text begins with a comment line but
contains an executable statement on the next line. -/
def c10Script : String := "-- lead\nSELECT 5"

/-- A transient driver error: a `pyodbc.Error` whose message contains
"timeout". -/
def transientErr : SQLExecutionError :=
  ⟨"SELECT 1", ⟨true, "query timeout expired"⟩, some "step"⟩

/-- A non-transient driver error: a `pyodbc.Error` whose message mentions
neither timeout nor deadlock. -/
def nonTransientErr : SQLExecutionError :=
  ⟨"UPDATE t SET x = 1", ⟨true, "Incorrect syntax near the keyword SET"⟩, some "step"⟩

/-- An error that is not a `pyodbc.Error` at all. -/
def nonPyodbcErr : SQLExecutionError :=
  ⟨"SELECT 2", ⟨false, "cursor state invalid"⟩, some "step"⟩

/-- A step that fails with a transient error on attempts 0 and 1, then
succeeds. -/
def stepW : Nat → Except SQLExecutionError Nat := fun n =>
  if n < 2 then .error transientErr else .ok 42

/-- A step that always fails with the non-transient pyodbc error. -/
def stepNT : Nat → Except SQLExecutionError Nat := fun _ => .error nonTransientErr

/-- A step that always fails with the non-pyodbc error. -/
def stepNP : Nat → Except SQLExecutionError Nat := fun _ => .error nonPyodbcErr

/-! Theorems settling the claims. -/

/-- C2: Transaction Scope contract — for every connection and caller block,
`transaction_scope` re-raises the block's exception unchanged (and raises
nothing when the block exits normally); on normal exit it commits exactly
once and rolls back zero times beyond what the block did; on an exception
it commits zero times and rolls back exactly once beyond the block; it
restores the `autocommit` attribute to its prior value when the attribute
exists, and when the attribute is absent (`none`) the scope itself never
creates it, so it remains exactly what the block left — in particular
absent for a block that does not create it. -/
theorem transaction_scope_contract {E : Type} (body : TConn → TConn × Option E)
    (c : TConn) :
    (transaction_scope body c).2 = (body (scopeEntry c)).2 ∧
    ((body (scopeEntry c)).2 = none →
      (transaction_scope body c).1.commits = (body (scopeEntry c)).1.commits + 1 ∧
      (transaction_scope body c).1.rollbacks = (body (scopeEntry c)).1.rollbacks) ∧
    ((body (scopeEntry c)).2.isSome = true →
      (transaction_scope body c).1.commits = (body (scopeEntry c)).1.commits ∧
      (transaction_scope body c).1.rollbacks = (body (scopeEntry c)).1.rollbacks + 1) ∧
    (c.autocommit.isSome = true →
      (transaction_scope body c).1.autocommit = c.autocommit) ∧
    (c.autocommit = none →
      (transaction_scope body c).1.autocommit = (body c).1.autocommit) := by
  obtain ⟨ac, cm, rb⟩ := c
  rcases h : body (scopeEntry ⟨ac, cm, rb⟩) with ⟨c2, r⟩
  rcases r with _ | e <;> rcases ac with _ | v <;>
    simp_all [transaction_scope, restoreAuto, scopeEntry]

/-- Witness for C2: a do-nothing block under an initially autocommitting
connection yields one commit, zero rollbacks and a restored flag; a raising
block yields zero commits, one rollback, the same exception, and a
restored flag; with the attribute absent it stays absent. -/
theorem transaction_scope_contract_witness :
    (transaction_scope (fun c => (c, (none : Option Nat))) ⟨some true, 0, 0⟩).1.commits = 1 ∧
    (transaction_scope (fun c => (c, (none : Option Nat))) ⟨some true, 0, 0⟩).1.rollbacks = 0 ∧
    (transaction_scope (fun c => (c, (none : Option Nat))) ⟨some true, 0, 0⟩).1.autocommit =
      some true ∧
    (transaction_scope (fun c => (c, (some 7 : Option Nat))) ⟨some true, 0, 0⟩).1.commits = 0 ∧
    (transaction_scope (fun c => (c, (some 7 : Option Nat))) ⟨some true, 0, 0⟩).1.rollbacks = 1 ∧
    (transaction_scope (fun c => (c, (some 7 : Option Nat))) ⟨some true, 0, 0⟩).1.autocommit =
      some true ∧
    (transaction_scope (fun c => (c, (some 7 : Option Nat))) ⟨some true, 0, 0⟩).2 = some 7 ∧
    (transaction_scope (fun c => (c, (none : Option Nat))) ⟨none, 0, 0⟩).1.autocommit =
      none := by
  have h1 := transaction_scope_contract (fun c => (c, (none : Option Nat)))
    ⟨some true, 0, 0⟩
  have h2 := transaction_scope_contract (fun c => (c, (some 7 : Option Nat)))
    ⟨some true, 0, 0⟩
  have h3 := transaction_scope_contract (fun c => (c, (none : Option Nat)))
    ⟨none, 0, 0⟩
  obtain ⟨he1, hn1, -, ha1, -⟩ := h1
  obtain ⟨he2, -, hs2, ha2, -⟩ := h2
  obtain ⟨-, -, -, -, hb3⟩ := h3
  have hc1 := hn1 rfl
  have hc2 := hs2 rfl
  refine ⟨?_, ?_, ?_, ?_, ?_, ?_, ?_, ?_⟩
  · simpa [scopeEntry] using hc1.1
  · simpa [scopeEntry] using hc1.2
  · simpa using ha1 rfl
  · simpa [scopeEntry] using hc2.1
  · simpa [scopeEntry] using hc2.2
  · simpa using ha2 rfl
  · simpa using he2
  · simpa using hb3 rfl

/-- Helper: the loop of `run_sql_step_with_retry` executes at most
`attempt + remaining` attempts. -/
theorem retryFrom_calls_le {α : Type} (step : Nat → Except SQLExecutionError α) :
    ∀ rem att, (retryFrom step rem att).calls ≤ att + rem := by
  intro rem
  induction rem with
  | zero => intro att; simp [retryFrom, RetryOutcome.calls]
  | succ r ih =>
    intro att
    rw [retryFrom]
    rcases step att with e | v
    · cases hp : e.original.isPyodbc
      · simp [hp, RetryOutcome.calls]
      · by_cases hr : r = 0
        · simp [hp, hr, RetryOutcome.calls]
        · have h := ih (att + 1)
          simp only [hp, hr, if_true, if_false, ite_false]
          calc (retryFrom step r (att + 1)).calls ≤ att + 1 + r := h
            _ ≤ att + (r + 1) := by omega
    · simp [RetryOutcome.calls]

/-- Helper: when the first `k` attempts fail with `pyodbc.Error`-wrapped
failures and attempt `k` succeeds, the loop returns the success with
`k + 1` calls (provided `k` is within the allowed attempts). -/
theorem retryFrom_ok {α : Type} (step : Nat → Except SQLExecutionError α) (v : α) :
    ∀ k att rem, k < rem →
      (∀ i, i < k → ∃ e, step (att + i) = .error e ∧ e.original.isPyodbc = true) →
      step (att + k) = .ok v →
      retryFrom step rem att = .ok v (att + k + 1) := by
  intro k
  induction k with
  | zero =>
    intro att rem hlt hfail hok
    obtain ⟨r, rfl⟩ : ∃ r, rem = r + 1 := ⟨rem - 1, by omega⟩
    rw [retryFrom]
    simp only [Nat.add_zero] at hok
    rw [hok]
  | succ k ih =>
    intro att rem hlt hfail hok
    obtain ⟨r, rfl⟩ : ∃ r, rem = r + 1 := ⟨rem - 1, by omega⟩
    obtain ⟨e, he, hp⟩ := hfail 0 (Nat.succ_pos k)
    rw [retryFrom]
    simp only [Nat.add_zero] at he
    rw [he]
    have hr : ¬ r = 0 := by omega
    simp only [hp, hr, if_true, if_false, ite_false]
    have hrec := ih (att + 1) r (by omega)
      (fun i hi => by
        obtain ⟨e', he', hp'⟩ := hfail (i + 1) (by omega)
        refine ⟨e', ?_, hp'⟩
        have harith : att + (i + 1) = att + 1 + i := by omega
        rwa [harith] at he')
      (by
        have harith : att + (k + 1) = att + 1 + k := by omega
        rwa [harith] at hok)
    rw [hrec]
    congr 1
    omega

/-- Helper: when every allowed attempt fails with a `pyodbc.Error`-wrapped
failure, the loop re-raises the error of the final attempt after exactly
`remaining` calls. -/
theorem retryFrom_allfail {α : Type} (step : Nat → Except SQLExecutionError α)
    (es : Nat → SQLExecutionError) :
    ∀ rem att, 1 ≤ rem →
      (∀ i, i < rem → step (att + i) = .error (es (att + i)) ∧
        (es (att + i)).original.isPyodbc = true) →
      retryFrom step rem att = .raised (es (att + rem - 1)) (att + rem) := by
  intro rem
  induction rem with
  | zero => intro att h; omega
  | succ r ih =>
    intro att _ hfail
    obtain ⟨he, hp⟩ := hfail 0 (Nat.succ_pos r)
    rw [retryFrom]
    simp only [Nat.add_zero] at he hp
    rw [he]
    by_cases hr : r = 0
    · subst hr
      simp [hp]
    · simp only [hp, hr, if_true, if_false, ite_false]
      have hrec := ih (att + 1) (by omega)
        (fun i hi => by
          have h := hfail (i + 1) (by omega)
          have harith : att + (i + 1) = att + 1 + i := by omega
          rw [harith] at h
          exact h)
      rw [hrec]
      have h1 : att + 1 + r - 1 = att + (r + 1) - 1 := by omega
      have h2 : att + 1 + r = att + (r + 1) := by omega
      rw [h1, h2]

/-- C3: Retry bound — `run_sql_step_with_retry` performs at most
`max_retries` attempts; a step that fails with a transient-classified
error (a `pyodbc.Error` whose message contains "timeout" or "deadlock")
exactly `k < max_retries` times and then succeeds returns the successful
result with `k + 1` total calls; a step failing transient on every one of
the `max_retries ≥ 1` attempts re-raises the Execution Error of the final
attempt. -/
theorem retry_bound_and_transient {α : Type}
    (step : Nat → Except SQLExecutionError α) (m k : Nat) (v : α)
    (es : Nat → SQLExecutionError) :
    (run_sql_step_with_retry step m).calls ≤ m ∧
    (k < m →
      (∀ i, i < k → step i = .error (es i) ∧ (es i).original.isPyodbc = true ∧
        isTransient (es i).original = true) →
      step k = .ok v →
      run_sql_step_with_retry step m = .ok v (k + 1)) ∧
    (1 ≤ m →
      (∀ i, i < m → step i = .error (es i) ∧ (es i).original.isPyodbc = true ∧
        isTransient (es i).original = true) →
      run_sql_step_with_retry step m = .raised (es (m - 1)) m) := by
  refine ⟨?_, ?_, ?_⟩
  · simpa [run_sql_step_with_retry] using retryFrom_calls_le step m 0
  · intro hk hf hok
    have h := retryFrom_ok step v k 0 m hk
      (fun i hi => ⟨es i, by simpa using (hf i hi).1, (hf i hi).2.1⟩)
      (by simpa using hok)
    simpa [run_sql_step_with_retry] using h
  · intro hm hf
    have h := retryFrom_allfail step es m 0 hm
      (fun i hi => ⟨by simpa using (hf i hi).1, by simpa using (hf i hi).2.1⟩)
    simpa [run_sql_step_with_retry] using h

/-- Witness for C3: with `max_retries = 3`, a step failing transient on
attempts 0 and 1 and succeeding on attempt 2 returns the result with 3
calls; a step failing transient on every attempt raises the final error
after exactly 3 calls. -/
theorem retry_bound_and_transient_witness :
    run_sql_step_with_retry stepW 3 = .ok 42 3 ∧
    run_sql_step_with_retry (fun _ => (.error transientErr : Except SQLExecutionError Nat)) 3 =
      .raised transientErr 3 := by
  constructor
  · have h := (retry_bound_and_transient stepW 3 2 42 (fun _ => transientErr)).2.1
    have h2 := h (by omega)
      (fun i hi => ⟨by simp [stepW, hi],
        (by decide : transientErr.original.isPyodbc = true),
        (by decide : isTransient transientErr.original = true)⟩)
      (by simp [stepW])
    simpa using h2
  · have h := (retry_bound_and_transient
      (fun _ => (.error transientErr : Except SQLExecutionError Nat)) 3 0 0
      (fun _ => transientErr)).2.2
    have h2 := h (by omega) (fun i hi => ⟨rfl,
      (by decide : transientErr.original.isPyodbc = true),
      (by decide : isTransient transientErr.original = true)⟩)
    simpa using h2

/-- C4 counterexample: with `max_retries = 3`, a step that always fails
with a non-transient `pyodbc.Error` (message mentions neither timeout nor
deadlock) is retried and executes 3 attempts, not 1 as the claim states;
the final error is re-raised only after all attempts. -/
theorem retry_nontransient_counterexample :
    nonTransientErr.original.isPyodbc = true ∧
    isTransient nonTransientErr.original = false ∧
    run_sql_step_with_retry stepNT 3 = .raised nonTransientErr 3 ∧
    ¬ (run_sql_step_with_retry stepNT 3).calls = 1 := by decide

/-- C4 amended: only a failure that does not wrap a `pyodbc.Error` is
re-raised immediately with exactly one attempt, regardless of
`max_retries`; a failure wrapping a `pyodbc.Error` — transient or not —
is retried up to `max_retries` total attempts, after which the final
error is re-raised. -/
theorem retry_classification {α : Type}
    (step : Nat → Except SQLExecutionError α) (m : Nat) :
    (∀ e, 1 ≤ m → step 0 = .error e → e.original.isPyodbc = false →
      run_sql_step_with_retry step m = .raised e 1) ∧
    (∀ es : Nat → SQLExecutionError, 1 ≤ m →
      (∀ i, i < m → step i = .error (es i) ∧ (es i).original.isPyodbc = true) →
      run_sql_step_with_retry step m = .raised (es (m - 1)) m) := by
  constructor
  · intro e hm h0 hp
    obtain ⟨r, rfl⟩ : ∃ r, m = r + 1 := ⟨m - 1, by omega⟩
    rw [run_sql_step_with_retry, retryFrom, h0]
    simp [hp]
  · intro es hm hf
    have h := retryFrom_allfail step es m 0 hm
      (fun i hi => ⟨by simpa using (hf i hi).1, by simpa using (hf i hi).2⟩)
    simpa [run_sql_step_with_retry] using h

/-- Witness for C4's amended claim: a non-pyodbc failure raises after one
call even with `max_retries = 3`; the non-transient pyodbc failure of the
counterexample is retried for all 3 calls. -/
theorem retry_classification_witness :
    run_sql_step_with_retry stepNP 3 = .raised nonPyodbcErr 1 ∧
    run_sql_step_with_retry stepNT 3 = .raised nonTransientErr 3 := by
  constructor
  · exact (retry_classification stepNP 3).1 nonPyodbcErr (by omega) rfl (by decide)
  · have h := (retry_classification stepNT 3).2 (fun _ => nonTransientErr) (by omega)
      (fun i hi => ⟨rfl, (by decide : nonTransientErr.original.isPyodbc = true)⟩)
    simpa using h

/-- C1: Idempotence gate — for every connection whose ledger already
records `name` (and whose ledger-gate queries themselves succeed, which is
how "already recorded" is observable: the existence check, the `ROWID`
column check and the ledger SELECT execute and fetch normally), both
`run_sql_script` (in either mode) and `run_sql_script_pyodbc_raw` return
normally with no error and hand the driver only the three ledger-gate
queries: zero SQL statements from the script are executed. -/
theorem idempotence_gate (c : Conn) (name sql : String) (timeout : Nat)
    (raw_execution : Bool)
    (hmem : name ∈ c.ledger)
    (htbl : c.tableExists = true)
    (hrow : c.hasRowId = true)
    (hfetch : c.fetchFails = false)
    (hchk : c.execFails checkTableSql = none)
    (hcol : c.execFails checkRowIdSql = none)
    (hsel : c.execFails hasMigrationSql = none) :
    (run_sql_script c name sql timeout raw_execution).2 = none ∧
    (run_sql_script c name sql timeout raw_execution).1.trace =
      c.trace ++ [checkTableSql, checkRowIdSql, hasMigrationSql] ∧
    (run_sql_script_pyodbc_raw c name sql timeout).2 = none ∧
    (run_sql_script_pyodbc_raw c name sql timeout).1.trace =
      c.trace ++ [checkTableSql, checkRowIdSql, hasMigrationSql] := by
  obtain ⟨sh, tbl, row, pk, led, ef, ff, tr, cm, rb⟩ := c
  simp only at hmem htbl hrow hfetch hchk hcol hsel
  subst htbl
  subst hrow
  subst hfetch
  cases sh <;>
    simp [run_sql_script, run_sql_script_pyodbc_raw, ensure_version_table,
      has_migration, mExecute, hchk, hcol, hsel, hmem]

/-- Witness for C1: a connection with `"X"` recorded runs the script
`"DROP TABLE t"` under the name `"X"` and executes only the three
ledger-gate queries, returning without error. -/
theorem idempotence_gate_witness :
    (run_sql_script gateConn "X" "DROP TABLE t" 300 false).2 = none ∧
    (run_sql_script gateConn "X" "DROP TABLE t" 300 false).1.trace =
      [checkTableSql, checkRowIdSql, hasMigrationSql] ∧
    (run_sql_script_pyodbc_raw gateConn "X" "DROP TABLE t" 300).2 = none ∧
    (run_sql_script_pyodbc_raw gateConn "X" "DROP TABLE t" 300).1.trace =
      [checkTableSql, checkRowIdSql, hasMigrationSql] := by
  have h := idempotence_gate gateConn "X" "DROP TABLE t" 300 false
    (by decide) rfl rfl rfl rfl rfl rfl
  refine ⟨h.1, ?_, h.2.2.1, ?_⟩
  · rw [h.2.1]; rfl
  · rw [h.2.2.2]; rfl

/-- C5: Batch splitting correctness — the separator split of
`"SELECT 1\nGO\n-- comment only\nGO\nSELECT 2"` yields the three pieces
`SELECT 1`, `-- comment only`, `SELECT 2`; running it on a fresh connection
in batched mode, and through the raw-pyodbc runner, hands the driver
exactly the two executable batches `SELECT 1` and `SELECT 2` (plus the
ledger bookkeeping and, on the pyodbc path, the timeout directive): the
comment-only middle batch is dropped entirely and never executed, and both
runs return without error. -/
theorem batch_splitting_correctness :
    goSplit c5Script = ["SELECT 1", "-- comment only", "SELECT 2"] ∧
    (run_sql_script freshConn "S" c5Script 300 false).2 = none ∧
    (run_sql_script freshConn "S" c5Script 300 false).1.trace =
      [checkTableSql, createTableSql, hasMigrationSql,
        "SELECT 1", "SELECT 2",
        checkTableSql, checkRowIdSql, insertMigrationSql] ∧
    (run_sql_script_pyodbc_raw freshConn "S" c5Script 300).2 = none ∧
    (run_sql_script_pyodbc_raw freshConn "S" c5Script 300).1.trace =
      [checkTableSql, createTableSql, hasMigrationSql, setLockTimeoutSql 300,
        "SELECT 1", "SELECT 2",
        checkTableSql, checkRowIdSql, insertMigrationSql] := by
  refine ⟨?_, ?_, ?_, ?_, ?_⟩ <;> rfl

/-- C6 counterexample: on a connection whose ledger SELECT itself raises a
driver error, `has_migration` propagates the error instead of returning a
boolean — the claim that it returns `false` on any read failure fails at
this input. -/
theorem has_migration_raises_counterexample :
    (has_migration badSelectConn "X").2 = .error ⟨true, "connection is busy"⟩ ∧
    (match (has_migration badSelectConn "X").2 with
      | .ok _ => true
      | .error _ => false) = false := by
  constructor <;> rfl

/-- C6 amended: `has_migration` returns a boolean whenever the ledger
SELECT itself executes — in particular, when fetching the rows fails, the
caught failure yields `false` rather than an exception; but a failure of
the SELECT execution itself propagates as an exception to the caller. -/
theorem has_migration_read_failure (c : Conn) (name : String) :
    (c.execFails hasMigrationSql = none →
      (has_migration c name).2 =
        .ok (if c.fetchFails then false else c.ledger.contains name)) ∧
    (∀ e, c.execFails hasMigrationSql = some e →
      (has_migration c name).2 = .error e) := by
  obtain ⟨sh, tbl, row, pk, led, ef, ff, tr, cm, rb⟩ := c
  constructor
  · intro h
    simp only at h
    cases sh <;> simp [has_migration, mExecute, h]
  · intro e h
    simp only at h
    cases sh <;> simp [has_migration, mExecute, h]

/-- Witness for C6's amended claim: a fetch failure yields `false` even
though the name is recorded; a SELECT-execution failure propagates. -/
theorem has_migration_read_failure_witness :
    (has_migration fetchFailConn "X").2 = .ok false ∧
    (has_migration badSelectConn "X").2 = .error ⟨true, "connection is busy"⟩ := by
  constructor
  · have h := (has_migration_read_failure fetchFailConn "X").1 rfl
    simpa [fetchFailConn, gateConn, freshConn] using h
  · exact (has_migration_read_failure badSelectConn "X").2
      ⟨true, "connection is busy"⟩ rfl

/-- C7 counterexample: on a cursor-based (DB-API) connection whose ledger
INSERT raises, `record_migration` re-raises the error but performs no
rollback — the claim that every insert failure is followed by a rollback
fails at this input. -/
theorem record_migration_no_rollback_counterexample :
    (record_migration badInsertCursorConn "X").2 =
      some ⟨true, "Violation of UNIQUE KEY constraint"⟩ ∧
    (record_migration badInsertCursorConn "X").1.rollbacks = 0 := by
  constructor <;> rfl

/-- C7 amended: `record_migration` ensures the ledger table exists, inserts
the name and commits immediately (for a cursor-based connection `_execute`
commits each of its calls; for a statement-execute connection the insert is
followed by one explicit commit); every insert failure is re-raised to the
caller without recording the name, with a rollback issued first on the
statement-execute shape but no rollback on the cursor-based (DB-API)
shape. -/
theorem record_migration_contract (c : Conn) (name : String)
    (hchk : c.execFails checkTableSql = none)
    (hcol : c.execFails checkRowIdSql = none)
    (htbl : c.tableExists = true)
    (hrow : c.hasRowId = true)
    (hfetch : c.fetchFails = false) :
    (c.execFails insertMigrationSql = none →
      (record_migration c name).2 = none ∧
      (record_migration c name).1.ledger = c.ledger ++ [name] ∧
      (record_migration c name).1.commits =
        (match c.shape with
          | .stmtExec => c.commits + 1
          | .cursorBased => c.commits + 3) ∧
      (record_migration c name).1.rollbacks = c.rollbacks) ∧
    (∀ e, c.execFails insertMigrationSql = some e →
      (record_migration c name).2 = some e ∧
      (record_migration c name).1.ledger = c.ledger ∧
      (record_migration c name).1.rollbacks =
        (match c.shape with
          | .stmtExec => c.rollbacks + 1
          | .cursorBased => c.rollbacks)) := by
  obtain ⟨sh, tbl, row, pk, led, ef, ff, tr, cm, rb⟩ := c
  simp only at hchk hcol htbl hrow hfetch
  subst htbl
  subst hrow
  subst hfetch
  constructor
  · intro hins
    simp only at hins
    cases sh <;>
      simp [record_migration, ensure_version_table, mExecute, rawExec,
        hchk, hcol, hins]
  · intro e hins
    simp only at hins
    cases sh <;>
      simp [record_migration, ensure_version_table, mExecute, rawExec,
        hchk, hcol, hins]

/-- Witness for C7's amended claim: a successful insert on a healthy
statement-execute connection records the name, commits once and rolls
back zero times; the failing cursor-based insert of the counterexample
re-raises with zero rollbacks, and a failing statement-execute insert
rolls back once. -/
theorem record_migration_contract_witness :
    (record_migration gateConn "Y").2 = none ∧
    (record_migration gateConn "Y").1.ledger = ["X", "Y"] ∧
    (record_migration gateConn "Y").1.commits = 1 ∧
    (record_migration badInsertCursorConn "X").2 =
      some ⟨true, "Violation of UNIQUE KEY constraint"⟩ ∧
    (record_migration badInsertCursorConn "X").1.rollbacks = 0 ∧
    (record_migration badInsertStmtConn "X").1.rollbacks = 1 := by
  have h1 := (record_migration_contract gateConn "Y" rfl rfl rfl rfl rfl).1 rfl
  have h2 := (record_migration_contract badInsertCursorConn "X" rfl rfl rfl rfl rfl).2
    ⟨true, "Violation of UNIQUE KEY constraint"⟩ rfl
  have h3 := (record_migration_contract badInsertStmtConn "X" rfl rfl rfl rfl rfl).2
    ⟨true, "Violation of UNIQUE KEY constraint"⟩ rfl
  refine ⟨h1.1, ?_, ?_, h2.1, ?_, ?_⟩
  · rw [h1.2.1]; rfl
  · rw [h1.2.2.1]; rfl
  · rw [h2.2.2]; rfl
  · rw [h3.2.2]; rfl

/-- C8 counterexample: `execute_sql_with_timeout` contains no exception
handler — on a connection whose statement raises a driver error, the
caller sees the raw driver error, not a wrapped `SQLExecutionError`. -/
theorem executor_no_wrapping_counterexample :
    (execute_sql_with_timeout stmtFailConn "SELECT * FROM t" 300).2 =
      .error (.driver ⟨true, "Invalid object name t"⟩) ∧
    (match (execute_sql_with_timeout stmtFailConn "SELECT * FROM t" 300).2 with
      | .error (.sqlExec _) => true
      | _ => false) = false := by
  constructor <;> rfl

/-- C8 amended: a driver failure during execution escapes
`execute_sql_with_timeout` unwrapped; the catching and wrapping described
by the claim is performed by `run_sql_step`, which re-raises any driver
failure as an `SQLExecutionError` carrying the original exception, the
attempted SQL text and the step's logical name. -/
theorem executor_and_step_error_wrapping (c : Conn) (name sql : String)
    (timeout : Nat) (e : DriverErr)
    (hlock : c.execFails (setLockTimeoutSql timeout) = none)
    (hfail : c.execFails sql = some e) :
    (execute_sql_with_timeout c sql timeout).2 = .error (.driver e) ∧
    (run_sql_step c name sql timeout).2 = .error ⟨sql, e, some name⟩ := by
  obtain ⟨sh, tbl, row, pk, led, ef, ff, tr, cm, rb⟩ := c
  simp only at hlock hfail
  cases sh <;>
    simp [execute_sql_with_timeout, run_sql_step, rawExec, hlock, hfail]

/-- Witness for C8: the failing statement of the counterexample escapes the
executor as a raw driver error but is wrapped with its SQL text and step
name by `run_sql_step`. -/
theorem executor_and_step_error_wrapping_witness :
    (execute_sql_with_timeout stmtFailConn "SELECT * FROM t" 300).2 =
      .error (.driver ⟨true, "Invalid object name t"⟩) ∧
    (run_sql_step stmtFailConn "step1" "SELECT * FROM t" 300).2 =
      .error ⟨"SELECT * FROM t", ⟨true, "Invalid object name t"⟩, some "step1"⟩ :=
  executor_and_step_error_wrapping stmtFailConn "step1" "SELECT * FROM t" 300
    ⟨true, "Invalid object name t"⟩ rfl rfl

/-- C9 counterexample: on a cursor-based connection where the
`SET LOCK_TIMEOUT` directive raises, `execute_sql_with_timeout` propagates
the failure — it is not swallowed, the statement is never executed, and no
live cursor is returned. -/
theorem timeout_directive_not_swallowed_counterexample :
    (execute_sql_with_timeout lockFailConn "SELECT 7" 300).2 =
      .error (.driver ⟨true, "SET LOCK_TIMEOUT failed"⟩) ∧
    (execute_sql_with_timeout lockFailConn "SELECT 7" 300).1.trace =
      [setLockTimeoutSql 300] ∧
    ((execute_sql_with_timeout lockFailConn "SELECT 7" 300).1.trace.contains
      "SELECT 7") = false := by
  refine ⟨rfl, rfl, rfl⟩

/-- C9 amended: for every cursor-based connection the executor first
issues the lock-timeout directive; a failure while setting it propagates
to the caller (it is not swallowed) and the statement is not executed;
when the directive succeeds and the statement succeeds, the statement is
executed right after the directive and the live cursor is returned. -/
theorem timeout_directive_first (c : Conn) (sql : String) (timeout : Nat)
    (hshape : c.shape = .cursorBased) :
    (∀ e, c.execFails (setLockTimeoutSql timeout) = some e →
      (execute_sql_with_timeout c sql timeout).2 = .error (.driver e) ∧
      (execute_sql_with_timeout c sql timeout).1.trace =
        c.trace ++ [setLockTimeoutSql timeout]) ∧
    (c.execFails (setLockTimeoutSql timeout) = none → c.execFails sql = none →
      (execute_sql_with_timeout c sql timeout).2 = .ok true ∧
      (execute_sql_with_timeout c sql timeout).1.trace =
        c.trace ++ [setLockTimeoutSql timeout, sql]) := by
  obtain ⟨sh, tbl, row, pk, led, ef, ff, tr, cm, rb⟩ := c
  simp only at hshape
  subst hshape
  constructor
  · intro e he
    simp only at he
    simp [execute_sql_with_timeout, rawExec, he]
  · intro hlock hsql
    simp only at hlock hsql
    simp [execute_sql_with_timeout, rawExec, hlock, hsql]

/-- Witness for C9's amended claim: the failing directive of the
counterexample propagates with the statement unexecuted; on a healthy
cursor connection the directive is followed by the statement and a live
cursor comes back. -/
theorem timeout_directive_first_witness :
    (execute_sql_with_timeout lockFailConn "SELECT 7" 300).2 =
      .error (.driver ⟨true, "SET LOCK_TIMEOUT failed"⟩) ∧
    (execute_sql_with_timeout lockFailConn "SELECT 7" 300).1.trace =
      [setLockTimeoutSql 300] ∧
    (execute_sql_with_timeout cursorOkConn "SELECT 7" 300).2 = .ok true ∧
    (execute_sql_with_timeout cursorOkConn "SELECT 7" 300).1.trace =
      [setLockTimeoutSql 300, "SELECT 7"] := by
  have h1 := (timeout_directive_first lockFailConn "SELECT 7" 300 rfl).1
    ⟨true, "SET LOCK_TIMEOUT failed"⟩ rfl
  have h2 := (timeout_directive_first cursorOkConn "SELECT 7" 300 rfl).2 rfl rfl
  refine ⟨h1.1, ?_, h2.1, ?_⟩
  · rw [h1.2]; rfl
  · rw [h2.2]; rfl

/-- Helper: a string that starts with `--` is nonempty. -/
theorem startsDashDash_ne_empty {s : String} (h : startsDashDash s = true) :
    ¬ s = "" := by
  intro he
  rw [he] at h
  exact absurd h (by decide)

/-- Helper: the batched-mode batch loop behaves identically on a batch
list and on that list with every batch whose stripped text begins with
`--` removed: such batches are skipped wholesale — not executed, not
committed, not counted, and they raise nothing. -/
theorem runBatches_skips_comment_batches (name : String) :
    ∀ (bs : List String) (c : Conn),
      runBatches name bs c =
        runBatches name (bs.filter (fun b => !startsDashDash (pyStrip b))) c := by
  intro bs
  induction bs with
  | nil => intro c; rfl
  | cons b rest ih =>
    intro c
    cases hd : startsDashDash (pyStrip b)
    · have hfilter : (!startsDashDash (pyStrip b)) = true := by simp [hd]
      simp only [List.filter_cons, hfilter, if_true, ite_true]
      by_cases ht : pyStrip b = ""
      · simp only [runBatches, ht, if_pos rfl, ite_true]
        exact ih c
      · rcases hre : rawExec c (pyStrip b) with ⟨c', r⟩
        rcases r with _ | e
        · simp only [runBatches, if_neg ht, hd, Bool.false_eq_true, if_false,
            ite_false, hre]
          exact ih _
        · simp only [runBatches, if_neg ht, hd, Bool.false_eq_true, if_false,
            ite_false, hre]
    · have hfilter : (!startsDashDash (pyStrip b)) = false := by simp [hd]
      simp only [List.filter_cons, hfilter, Bool.false_eq_true, if_false, ite_false]
      have ht : ¬ pyStrip b = "" := startsDashDash_ne_empty hd
      simp only [runBatches, if_neg ht, hd, if_true, ite_true]
      exact ih c

/-- C10: Implicit whole-batch comment skip — in batched (non-raw) mode the
batch loop treats every batch whose stripped text begins with `--` as if
it were absent (not executed, not committed, not counted, no error), even
when later lines of the batch hold executable SQL: on the one-batch script
`"-- lead\nSELECT 5"` the batched runner executes only ledger bookkeeping
(its single commit is the ledger insert's), while the raw-pyodbc runner,
which alone strips comments line by line, executes `SELECT 5`. -/
theorem comment_batch_whole_skip (name : String) (bs : List String) (c : Conn) :
    runBatches name bs c =
      runBatches name (bs.filter (fun b => !startsDashDash (pyStrip b))) c ∧
    (run_sql_script freshConn "T" c10Script 300 false).2 = none ∧
    (run_sql_script freshConn "T" c10Script 300 false).1.trace =
      [checkTableSql, createTableSql, hasMigrationSql,
        checkTableSql, checkRowIdSql, insertMigrationSql] ∧
    (run_sql_script freshConn "T" c10Script 300 false).1.commits = 1 ∧
    (run_sql_script_pyodbc_raw freshConn "T" c10Script 300).2 = none ∧
    (run_sql_script_pyodbc_raw freshConn "T" c10Script 300).1.trace =
      [checkTableSql, createTableSql, hasMigrationSql, setLockTimeoutSql 300,
        "SELECT 5", checkTableSql, checkRowIdSql, insertMigrationSql] :=
  ⟨runBatches_skips_comment_batches name bs c, rfl, rfl, rfl, rfl, rfl⟩

end EJ
